import Mathlib

/-!
Verification of the XliffTranslator repository's batch-translation core.

This file shallowly embeds the Python sources:
  * `src/claude_client.py` — `ClaudeClient.translate_batch`,
    `ClaudeClient._translate_single_batch` (response parsing and the
    retry / bisection / quarantine loop);
  * `src/translator.py` — `XliffTranslator.translate_file` (backup,
    parse, chunked translation, rewrite, restore-on-failure) and
    `XliffTranslator.translate_xcode_export` (directory mode);
  * `main.py` — the folder-mode exit-code logic.

External effects (the Anthropic API, the XLIFF parser, the filesystem)
are modelled as oracles supplied to the embedded functions, so each
embedded function is a pure function of its oracles.  Machine strings
are Lean `String`s; the Python string primitives used by the source
(`str.strip`, `str.lstrip(chars)`, `str.split('\n')`, `str.lower`,
`in` substring test, `str.replace`) are re-implemented below on
`List Char` with Python's semantics (restricted to ASCII, which is all
the source's literals use).
-/

/-- Python `str.isspace` members relevant to `str.strip()` (ASCII subset). -/
def isPySpace (c : Char) : Bool :=
  c == ' ' || c == '\t' || c == '\n' || c == '\r' || c == '\x0b' || c == '\x0c'

/-- Python `s.strip()` on a char list: remove leading and trailing whitespace. -/
def stripChars (l : List Char) : List Char :=
  ((l.dropWhile isPySpace).reverse.dropWhile isPySpace).reverse

/-- Python `s.split('\n')`: split on every newline; `""` yields one empty line. -/
def splitNl : List Char → List (List Char)
  | [] => [[]]
  | c :: rest =>
    match splitNl rest with
    | [] => [[]]
    | h :: t => if c = '\n' then [] :: h :: t else (c :: h) :: t

/-- The character set of the source's `t.lstrip('0123456789-.). ')`
(claude_client.py line 140). -/
def markerChars : List Char := "0123456789-.). ".data

/-- Membership test in `markerChars`, as used by the lstrip call. -/
def isMarker (c : Char) : Bool := markerChars.contains c

/-- Python `t.lstrip('0123456789-.). ')`: drop all leading marker characters. -/
def lstripMarkers (l : List Char) : List Char := l.dropWhile isMarker

/-- Python `s.lower()` (ASCII). -/
def lowerStr (s : String) : String := ⟨s.data.map Char.toLower⟩

/-- Check whether `sub` occurs as a contiguous sublist of `l`. -/
def listInfix (sub : List Char) : List Char → Bool
  | [] => sub.isEmpty
  | c :: rest => sub.isPrefixOf (c :: rest) || listInfix sub rest

/-- Python `sub in s` substring test. -/
def strContains (s sub : String) : Bool := listInfix sub.data s.data

/-- Python `s.replace(pat, rep)` (left-to-right, non-overlapping), via fuel on
the scanned list; `pyReplace` supplies sufficient fuel.  An empty pattern is
never used by the source and is treated as no-op. -/
def replaceFuel (pat rep : List Char) : Nat → List Char → List Char
  | 0, l => l
  | _ + 1, [] => []
  | fuel + 1, c :: rest =>
    if pat ≠ [] ∧ pat.isPrefixOf (c :: rest) then
      rep ++ replaceFuel pat rep fuel ((c :: rest).drop pat.length)
    else
      c :: replaceFuel pat rep fuel rest

/-- Python `s.replace(pat, rep)`. -/
def pyReplace (s pat rep : String) : String :=
  ⟨replaceFuel pat.data rep.data s.data.length s.data⟩

/-- A Python `dict` as an insertion-ordered association list: assignment
`d[k] = v` overwrites in place or appends. -/
def dictPut {α : Type} (d : List (String × α)) (k : String) (v : α) :
    List (String × α) :=
  if d.any (fun p => p.1 == k) then
    d.map (fun p => if p.1 == k then (k, v) else p)
  else d ++ [(k, v)]

/-- Python `d.update(kvs)` for the dict model. -/
def dictUpdate (d kvs : List (String × String)) : List (String × String) :=
  kvs.foldl (fun acc p => dictPut acc p.1 p.2) d

/-- Outcome of one call to the Anthropic messages API, as an oracle value:
either the raw text of the model's reply, or an exception with message
`msg` raised by the call itself. -/
inductive ApiResult where
  | ok (raw : String)
  | exn (msg : String)

/-- The API oracle: the outcome of the `k`-th API call of the process. -/
def Api : Type := Nat → ApiResult

/-- `ClaudeClient._translate_single_batch` (claude_client.py lines 114-150)
applied to one API outcome: split the stripped response into lines, lstrip
enumeration markers from each line, require exactly as many lines as input
items, and pair line `i` with input id `i`.  Every failure (including the
count-mismatch `ValueError` raised inside the `try`) is re-raised as
`ValueError("Translation failed: " + str(e))` by the function's
`except` clause. -/
def translateSingleBatch (texts : List (String × String)) (r : ApiResult) :
    Except String (List (String × String)) :=
  match r with
  | .exn msg => .error ("Translation failed: " ++ msg)
  | .ok raw =>
    let lines := (splitNl (stripChars raw.data)).map lstripMarkers
    if lines.length = texts.length then
      .ok ((texts.zip lines).map (fun p => (p.1.1, p.2.asString)))
    else
      .error ("Translation failed: Translation count mismatch: expected " ++
        toString texts.length ++ ", got " ++ toString lines.length)

/-- State of `translate_batch`'s `while remaining_texts:` loop
(claude_client.py lines 75-111), extended with the index of the next API
call (`calls`) and the sizes of the API calls made so far (`trace`), which
the Python code exposes through its log lines. -/
structure BatchState where
  translations : List (String × String)
  remaining : List (String × String)
  size : Nat
  calls : Nat
  trace : List Nat
  deriving Repr

/-- Result of the `for attempt in range(self.max_retries):` loop for one
batch: `succ` when an attempt succeeded, `noSucc` when the loop exited
without success (the count-mismatch `break`, or an empty attempt range),
`raised` when the final attempt re-raised. -/
inductive AttemptRes where
  | succ (pairs : List (String × String)) (calls : Nat)
  | noSucc (newSize : Nat) (calls : Nat)
  | raised (msg : String) (calls : Nat)

/-- The attempt loop of `translate_batch` (claude_client.py lines 83-103).
`mr` is `self.max_retries`; the last argument counts attempts remaining,
so `attempt < self.max_retries - 1` becomes `0 < n`. -/
def attemptLoop (api : Api) (mr : Nat) (batch : List (String × String))
    (size : Nat) : Nat → Nat → AttemptRes
  | calls, 0 => .noSucc size calls
  | calls, n + 1 =>
    match translateSingleBatch batch (api calls) with
    | .ok pairs => .succ pairs (calls + 1)
    | .error msg =>
      if strContains (lowerStr msg) "count mismatch" = true ∧ 1 < size then
        .noSucc (max 1 (size / 2)) (calls + 1)
      else if 0 < n then
        attemptLoop api mr batch size (calls + 1) n
      else
        .raised ("Failed after " ++ toString mr ++ " attempts: " ++ msg)
          (calls + 1)

/-- Result of one iteration of the `while remaining_texts:` loop. -/
inductive StepRes where
  | done (translations : List (String × String)) (calls : Nat) (trace : List Nat)
  | next (st : BatchState)
  | fail (msg : String) (calls : Nat) (trace : List Nat)

/-- One iteration of `translate_batch`'s while loop (claude_client.py
lines 79-110): take the batch, run the attempt loop, then on success merge
and advance the queue; on an unsuccessful exit drop the first queue element
when the (possibly just reduced) batch size is 1; on a re-raise fail. -/
def loopStep (api : Api) (mr : Nat) (st : BatchState) : StepRes :=
  if st.remaining.isEmpty then .done st.translations st.calls st.trace
  else
    match attemptLoop api mr (st.remaining.take st.size) st.size st.calls mr with
    | .succ pairs calls2 =>
      .next { translations := dictUpdate st.translations pairs,
              remaining := st.remaining.drop st.size,
              size := st.size, calls := calls2,
              trace := st.trace ++
                List.replicate (calls2 - st.calls) (st.remaining.take st.size).length }
    | .raised msg calls2 =>
      .fail msg calls2 (st.trace ++
        List.replicate (calls2 - st.calls) (st.remaining.take st.size).length)
    | .noSucc newSize calls2 =>
      if newSize = 1 then
        .next { translations := st.translations, remaining := st.remaining.drop 1,
                size := newSize, calls := calls2,
                trace := st.trace ++
                  List.replicate (calls2 - st.calls) (st.remaining.take st.size).length }
      else
        .next { translations := st.translations, remaining := st.remaining,
                size := newSize, calls := calls2,
                trace := st.trace ++
                  List.replicate (calls2 - st.calls) (st.remaining.take st.size).length }

/-- Iterate `loopStep` with fuel.  With `mr ≥ 1` every `.next` step strictly
decreases `remaining.length + size`, so the fuel passed by `translate_batch`
is never exhausted; with `mr = 0` and `size ≠ 1` the Python loop would spin
forever, which the model cuts off with an error. -/
def translateBatchGo (api : Api) (mr : Nat) :
    Nat → BatchState → Except String (List (String × String)) × Nat × List Nat
  | 0, st => (.error "out of fuel", st.calls, st.trace)
  | fuel + 1, st =>
    match loopStep api mr st with
    | .done tr calls trace => (.ok tr, calls, trace)
    | .fail msg calls trace => (.error msg, calls, trace)
    | .next st' => translateBatchGo api mr fuel st'

/-- `ClaudeClient.translate_batch` (claude_client.py lines 59-112).
Returns the result together with the next API-call index and the sizes of
the API calls made.  `mr` is `self.max_retries` (3 for the client the
translator constructs); `batchSize` is the `batch_size` argument
(default 10); `calls` is the index of the next API call. -/
def translate_batch (api : Api) (mr : Nat) (texts : List (String × String))
    (batchSize : Nat) (calls : Nat) :
    Except String (List (String × String)) × Nat × List Nat :=
  if texts.isEmpty then (.error "No texts provided for translation", calls, [])
  else
    translateBatchGo api mr (texts.length + batchSize + 1)
      { translations := [], remaining := texts, size := batchSize,
        calls := calls, trace := [] }

/-- The two files `translate_file` touches: the input file's current bytes
and the sibling `.bak` file's bytes (`none` when absent). -/
structure FS where
  target : String
  backup : Option String
  deriving Repr, DecidableEq

/-- Oracles for one `translate_file` run: the API stream, whether the
backup copy succeeds, the parser's outcome (`(translation_pairs,
existing_translations)` or an exception), the serialized output of
`update_translations`, whether the final write succeeds (and the bytes it
leaves behind when it does not), and whether the restore copy succeeds. -/
structure Env where
  api : Api
  backupOk : Bool
  backupErr : String
  parse : Except String (List (String × String) × List (String × String))
  render : List (String × String) → String
  writeOk : Bool
  writeErr : String
  failedWriteContent : String
  restoreOk : Bool

/-- Outcome of `translate_file`: normal return or a raised exception. -/
inductive RunRes where
  | ok
  | err (msg : String)
  deriving Repr, DecidableEq

/-- The `for i in range(0, len(translation_pairs), batch_size):` loop of
`translate_file` (translator.py lines 73-87): slice off 10 pairs at a time
and call `translate_batch` on the slice — each call starts at the client's
default `batch_size = 10` again.  `acc` starts as
`existing_translations.copy()`.  The first argument is fuel bounding the
number of slices; each step consumes at least one pair, so the
`pairs.length` supplied by `runBody` is always sufficient. -/
def chunkLoop (api : Api) (mr : Nat) :
    Nat → List (String × String) → List (String × String) → Nat → List Nat →
    Except String (List (String × String)) × Nat × List Nat
  | _, [], acc, calls, trace => (.ok acc, calls, trace)
  | 0, _ :: _, _, calls, trace => (.error "out of fuel", calls, trace)
  | fuel + 1, p :: ps, acc, calls, trace =>
    match translate_batch api mr ((p :: ps).take 10) 10 calls with
    | (.error e, calls2, tr) => (.error e, calls2, trace ++ tr)
    | (.ok m, calls2, tr) =>
      chunkLoop api mr fuel ((p :: ps).drop 10) (dictUpdate acc m) calls2
        (trace ++ tr)

/-- The body of `translate_file`'s `try:` block up to (not including) the
file rewrite (translator.py lines 46-87): parse, the two emptiness checks,
then the chunked translation.  `.ok none` is the early `return` taken when
everything is already translated; the result also carries the next
API-call index and the trace of API batch sizes. -/
def runBody (env : Env) :
    Except String (Option (List (String × String))) × Nat × List Nat :=
  match env.parse with
  | .error e => (.error e, 0, [])
  | .ok (pairs, existing) =>
    if pairs.isEmpty && existing.isEmpty then
      (.error "No translatable strings found in the XLIFF file", 0, [])
    else if pairs.isEmpty then (.ok none, 0, [])
    else
      match chunkLoop env.api 3 pairs.length pairs existing 0 [] with
      | (.error e, calls, trace) => (.error e, calls, trace)
      | (.ok m, calls, trace) => (.ok (some m), calls, trace)

/-- The `except:` handler of `translate_file` (translator.py lines
101-112): try to copy the backup back over the target (a failed restore is
only logged), then re-raise `ValueError("Translation failed: " + str(e))`
with the original error's message. -/
def handleFail (env : Env) (fs : FS) (e : String) (calls : Nat)
    (trace : List Nat) : RunRes × FS × Nat × List Nat :=
  let fs' := if env.restoreOk then { fs with target := fs.backup.getD fs.target }
             else fs
  (.err ("Translation failed: " ++ e), fs', calls, trace)

/-- `XliffTranslator.translate_file` (translator.py lines 19-112): write
the backup (aborting on failure before touching the target), run the body,
write the rendered document on success, and on any body or write failure
restore from the backup before re-raising.  The translator's client uses
`max_retries = 3`. -/
def translate_file (env : Env) (fs : FS) : RunRes × FS × Nat × List Nat :=
  if env.backupOk then
    let fs1 : FS := { target := fs.target, backup := some fs.target }
    match runBody env with
    | (.error e, calls, trace) => handleFail env fs1 e calls trace
    | (.ok none, calls, trace) => (.ok, fs1, calls, trace)
    | (.ok (some translations), calls, trace) =>
      if env.writeOk then
        (.ok, { fs1 with target := env.render translations }, calls, trace)
      else
        handleFail env { fs1 with target := env.failedWriteContent }
          env.writeErr calls trace
  else (.err ("Failed to create backup: " ++ env.backupErr), fs, 0, [])

/-- Oracles for one `translate_xcode_export` run: the basenames of the
`*.xcloc` glob matches, the optional `--languages` allowlist, whether the
per-language XLIFF file exists, and the outcome of `translate_file` for
each language code. -/
structure XEnv where
  folders : List String
  targetLangs : Option (List String)
  xliffExists : String → Bool
  fileResult : String → Except String Unit

/-- The `lang_code.lower() == 'en'` source-folder test of
`translate_xcode_export` (translator.py lines 141-144), applied to the
folder basename: the code is `basename.replace('.xcloc', '')`. -/
def sourceSkipped (name : String) : Bool :=
  lowerStr (pyReplace name ".xcloc" "") == "en"

/-- The `if target_languages and lang_code not in target_languages:` filter
(translator.py line 149); a `None` or empty allowlist is falsy. -/
def langFilterSkip : Option (List String) → String → Bool
  | none, _ => false
  | some ls, lang => !ls.isEmpty && !(ls.contains lang)

/-- The folder loop of `translate_xcode_export` (translator.py lines
140-174), building the `results` dict. -/
def xlocGo (env : XEnv) : List String → List (String × Bool) →
    List (String × Bool)
  | [], acc => acc
  | f :: rest, acc =>
    let lang := pyReplace f ".xcloc" ""
    if sourceSkipped f then xlocGo env rest acc
    else if langFilterSkip env.targetLangs lang then xlocGo env rest acc
    else if !(env.xliffExists lang) then
      xlocGo env rest (dictPut acc lang false)
    else
      match env.fileResult lang with
      | .ok _ => xlocGo env rest (dictPut acc lang true)
      | .error _ => xlocGo env rest (dictPut acc lang false)

/-- `XliffTranslator.translate_xcode_export` (translator.py lines
114-178): error when no `.xcloc` folders match, otherwise the per-language
success map. -/
def translate_xcode_export (env : XEnv) : Except String (List (String × Bool)) :=
  if env.folders.isEmpty then .error "No .xcloc folders found"
  else .ok (xlocGo env env.folders [])

/-- The language codes `translate_xcode_export` actually processes
(records an entry for), in order: those neither skipped as the source
folder nor filtered out by the allowlist.  A function of the folder list
and the allowlist only. -/
def processedLangsGo (tl : Option (List String)) : List String → List String
  | [] => []
  | f :: rest =>
    let lang := pyReplace f ".xcloc" ""
    if sourceSkipped f then processedLangsGo tl rest
    else if langFilterSkip tl lang then processedLangsGo tl rest
    else lang :: processedLangsGo tl rest

/-- Processed language codes of an export run. -/
def processedLangs (env : XEnv) : List String :=
  processedLangsGo env.targetLangs env.folders

/-- The recorded success value for one processed language: `false` when
its XLIFF file is missing or `translate_file` raised, `true` otherwise. -/
def bundleOutcome (env : XEnv) (lang : String) : Bool :=
  env.xliffExists lang &&
    (match env.fileResult lang with | .ok _ => true | .error _ => false)

/-- `main`'s folder-mode exit code (main.py lines 105-118): 1 when
`translate_xcode_export` raises, else 1 when no language succeeded
(`if not any(results.values()): sys.exit(1)`), else 0. -/
def mainFolderExit (env : XEnv) : Nat :=
  match translate_xcode_export env with
  | .error _ => 1
  | .ok res => if res.any (fun p => p.2) then 0 else 1

/-- A well-shaped model reply for a batch of `n` items: `n` lines. -/
def goodResp (n : Nat) : String := String.intercalate "\n" (List.replicate n "t")

/-- The error message, if any, of a `translate_file` outcome. -/
def resMsg (r : RunRes × FS × Nat × List Nat) : Option String :=
  match r.1 with
  | .ok => none
  | .err m => some m

/-- The set of characters named by the specification for line stripping:
digits `'0'`-`'9'`, `'-'`, `'.'`, `')'` and space. -/
def claimMarkerSet (c : Char) : Bool :=
  c == '0' || c == '1' || c == '2' || c == '3' || c == '4' || c == '5' ||
  c == '6' || c == '7' || c == '8' || c == '9' || c == '-' || c == '.' ||
  c == ')' || c == ' '

/-- Invariant of `translate_batch`'s loop relating the call-size trace to
the current state: the trace is non-increasing and every future call size
(`min size remaining.length` bounds the next batch length) is at most every
recorded one. -/
def BatchInv (st : BatchState) : Prop :=
  st.trace.Pairwise (· ≥ ·) ∧ ∀ x ∈ st.trace, min st.size st.remaining.length ≤ x

/-- Oracles for the 23-unit scenario: 23 pending units, no existing
translations, every call answered with exactly as many lines as asked. -/
def env23 : Env :=
  { api := fun k => if k = 0 then .ok (goodResp 10)
           else if k = 1 then .ok (goodResp 10) else .ok (goodResp 3),
    backupOk := true, backupErr := "",
    parse := .ok ((List.range 23).map (fun i => ("u" ++ toString i, "s")), []),
    render := fun _ => "OUT", writeOk := true, writeErr := "",
    failedWriteContent := "", restoreOk := true }

/-- Oracles for a 20-unit run whose first call (batch of 10) returns 9
lines (shape mismatch), after which every call is well-shaped: the first
chunk proceeds at sizes 5 and 5, and the second chunk starts at 10 again. -/
def env20 : Env :=
  { api := fun k => if k = 0 then .ok (goodResp 9)
           else if k = 1 || k = 2 then .ok (goodResp 5) else .ok (goodResp 10),
    backupOk := true, backupErr := "",
    parse := .ok ((List.range 20).map (fun i => ("u" ++ toString i, "s")), []),
    render := fun _ => "OUT", writeOk := true, writeErr := "",
    failedWriteContent := "", restoreOk := true }

/-- Oracles of a failing-backup run (for the C5 witness). -/
def envBackupFail : Env :=
  { api := fun _ => .exn "unused", backupOk := false, backupErr := "disk full",
    parse := .ok ([("a", "s")], []), render := fun _ => "OUT",
    writeOk := true, writeErr := "", failedWriteContent := "",
    restoreOk := true }

/-- Oracles of a run whose parse raises (for the C5 witness). -/
def envParseFail : Env :=
  { api := fun _ => .exn "unused", backupOk := true, backupErr := "",
    parse := .error "boom", render := fun _ => "OUT",
    writeOk := true, writeErr := "", failedWriteContent := "",
    restoreOk := true }

/-- Oracles of a run with nothing pending and one existing translation
(for the C7 witness). -/
def envAllDone : Env :=
  { api := fun _ => .exn "unused", backupOk := true, backupErr := "",
    parse := .ok ([], [("a", "done")]), render := fun _ => "OUT",
    writeOk := true, writeErr := "", failedWriteContent := "",
    restoreOk := true }

/-- Oracles of a run with nothing pending and nothing existing
(for the C7 witness). -/
def envNothing : Env :=
  { api := fun _ => .exn "unused", backupOk := true, backupErr := "",
    parse := .ok ([], []), render := fun _ => "OUT",
    writeOk := true, writeErr := "", failedWriteContent := "",
    restoreOk := true }

/-- A directory run over `en`, `de`, `fr` where `de`'s translation raises
and `fr` succeeds (for the C8 witness). -/
def envDirMixed : XEnv :=
  { folders := ["en.xcloc", "de.xcloc", "fr.xcloc"], targetLangs := none,
    xliffExists := fun _ => true,
    fileResult := fun l => if l == "de" then .error "boom" else .ok () }

/-- A directory run over `en`, `de`, `fr` where every processed language
fails (for the C8 witness). -/
def envDirAllFail : XEnv :=
  { folders := ["en.xcloc", "de.xcloc", "fr.xcloc"], targetLangs := none,
    xliffExists := fun _ => true, fileResult := fun _ => .error "boom" }

theorem attemptLoop_noSucc_size (api : Api) (mr : Nat)
    (batch : List (String × String)) (size : Nat) :
    ∀ n calls newSize calls2,
      attemptLoop api mr batch size calls n = .noSucc newSize calls2 →
      newSize = size ∨ (newSize = max 1 (size / 2) ∧ 1 < size) := by
  intro n
  induction n with
  | zero =>
    intro calls newSize calls2 h
    simp [attemptLoop] at h
    exact Or.inl h.1.symm
  | succ n ih =>
    intro calls newSize calls2 h
    rw [attemptLoop] at h
    split at h
    · cases h
    · split at h
      · rename_i hc
        cases h
        exact Or.inr ⟨rfl, hc.2⟩
      · split at h
        · exact ih _ _ _ h
        · cases h

theorem pairwise_ge_replicate (c a : Nat) :
    (List.replicate c a).Pairwise (α := Nat) (· ≥ ·) := by
  induction c with
  | zero => simp
  | succ n ih =>
    rw [List.replicate_succ]
    exact List.Pairwise.cons (fun b hb => by rw [List.eq_of_mem_replicate hb]) ih

theorem batchInv_extend (st : BatchState) (h : BatchInv st) (c : Nat) :
    (st.trace ++ List.replicate c (min st.size st.remaining.length)).Pairwise
      (α := Nat) (· ≥ ·) := by
  rw [List.pairwise_append]
  refine ⟨h.1, pairwise_ge_replicate _ _, ?_⟩
  intro x hx b hb
  rw [List.eq_of_mem_replicate hb]
  exact h.2 x hx

theorem loopStep_inv_next (api : Api) (mr : Nat) (st : BatchState)
    (h : BatchInv st) (st' : BatchState) (hst : loopStep api mr st = .next st') :
    BatchInv st' := by
  unfold loopStep at hst
  split at hst
  · cases hst
  · split at hst
    · -- succ
      cases hst
      refine ⟨?_, ?_⟩
      · rw [List.length_take]
        exact batchInv_extend st h _
      · intro x hx
        rw [List.length_take] at hx
        rw [List.mem_append] at hx
        have hle : min st.size (st.remaining.drop st.size).length ≤
            min st.size st.remaining.length := by
          apply min_le_min_left
          rw [List.length_drop]
          omega
        rcases hx with hx | hx
        · exact le_trans hle (h.2 x hx)
        · rw [List.eq_of_mem_replicate hx]
          exact hle
    · -- raised
      cases hst
    · -- noSucc
      rename_i newSize calls2 ha
      have hsz : newSize ≤ st.size := by
        rcases attemptLoop_noSucc_size api mr _ _ _ _ _ _ ha with h1 | ⟨h1, h2⟩
        · omega
        · have : st.size / 2 ≤ st.size := Nat.div_le_self _ _
          omega
      split at hst
      all_goals cases hst
      · refine ⟨?_, ?_⟩
        · rw [List.length_take]
          exact batchInv_extend st h _
        · intro x hx
          rw [List.length_take] at hx
          rw [List.mem_append] at hx
          have hle : min newSize (st.remaining.drop 1).length ≤
              min st.size st.remaining.length := by
            apply min_le_min hsz
            rw [List.length_drop]
            omega
          rcases hx with hx | hx
          · exact le_trans hle (h.2 x hx)
          · rw [List.eq_of_mem_replicate hx]
            exact hle
      · refine ⟨?_, ?_⟩
        · rw [List.length_take]
          exact batchInv_extend st h _
        · intro x hx
          rw [List.length_take] at hx
          rw [List.mem_append] at hx
          have hle : min newSize st.remaining.length ≤
              min st.size st.remaining.length := min_le_min hsz (le_refl _)
          rcases hx with hx | hx
          · exact le_trans hle (h.2 x hx)
          · rw [List.eq_of_mem_replicate hx]
            exact hle

theorem loopStep_inv_done (api : Api) (mr : Nat) (st : BatchState)
    (h : BatchInv st) (tr : List (String × String)) (calls : Nat)
    (trace : List Nat) (hst : loopStep api mr st = .done tr calls trace) :
    trace.Pairwise (α := Nat) (· ≥ ·) := by
  unfold loopStep at hst
  split at hst
  · cases hst
    exact h.1
  · split at hst
    · cases hst
    · cases hst
    · split at hst
      all_goals cases hst

theorem loopStep_inv_fail (api : Api) (mr : Nat) (st : BatchState)
    (h : BatchInv st) (msg : String) (calls : Nat)
    (trace : List Nat) (hst : loopStep api mr st = .fail msg calls trace) :
    trace.Pairwise (α := Nat) (· ≥ ·) := by
  unfold loopStep at hst
  split at hst
  · cases hst
  · split at hst
    · cases hst
    · cases hst
      rw [List.length_take]
      exact batchInv_extend st h _
    · split at hst
      all_goals cases hst

theorem translateBatchGo_pairwise (api : Api) (mr : Nat) :
    ∀ fuel st, BatchInv st →
      ((translateBatchGo api mr fuel st).2.2).Pairwise (α := Nat) (· ≥ ·) := by
  intro fuel
  induction fuel with
  | zero => intro st h; exact h.1
  | succ n ih =>
    intro st h
    rw [translateBatchGo]
    split
    · rename_i tr calls trace hs
      exact loopStep_inv_done api mr st h tr calls trace hs
    · rename_i msg calls trace hs
      exact loopStep_inv_fail api mr st h msg calls trace hs
    · rename_i st' hs
      exact ih st' (loopStep_inv_next api mr st h st' hs)

/-- Claim C1 (refuted by the code, exhibiting the code's divergence from its
own comments): with two units and batch size 1, when every attempt on the
first unit fails, `translate_batch` raises
`ValueError("Failed after 3 attempts: ...")` after 3 API calls — it does not
drop the failing unit, does not continue with the second unit, and returns
no result map.  The quarantine branch of claude_client.py lines 105-110 is
unreachable for a batch that fails at size 1, because the final attempt's
`else: raise` fires first. -/
theorem c1_size1_exhaustion_raises :
    translate_batch (fun _ => .exn "boom") 3 [("a", "x"), ("b", "y")] 1 0 =
      (.error "Failed after 3 attempts: Translation failed: boom", 3, [1, 1, 1]) := by
  rfl

/-- Claim C2 (refuted by the code): with two units at batch size 2, a
count-mismatch response (3 lines for 2 items) halves the size to
`max(1, 2 div 2) = 1`, and then — because the reduced size is 1 — the check
at claude_client.py line 105 immediately drops the batch's first unit `"a"`
from the queue without any retry of the same batch; only `"b"` is
translated.  The claim's promised retry of the same batch at the halved
size does not happen for k = 2 (nor k = 3). -/
theorem c2_k2_mismatch_drops_instead_of_retrying :
    translate_batch (fun k => if k = 0 then .ok "1\n2\n3" else .ok "hola") 3
        [("a", "x"), ("b", "y")] 2 0 =
      (.ok [("b", "hola")], 2, [2, 1]) := by
  rfl

/-- Claim C3 counterexample: a 20-unit `translate_file` run whose first
API call (batch of 10) returns 9 lines uses batch sizes 10, 5, 5 for its
first chunk, and then the second chunk of 10 starts at the client default
size 10 again — the sequence of batch sizes across the run's backend calls
is 10, 5, 5, 10, which is not non-increasing. -/
theorem c3_run_sizes_not_monotone :
    (translate_file env20 { target := "orig", backup := none }).2.2.2 =
      [10, 5, 5, 10] ∧
    ¬ ([10, 5, 5, 10] : List Nat).Pairwise (· ≥ ·) := by
  exact ⟨by rfl, by decide⟩

/-- Claim C3 as amended: the batch sizes are non-increasing within one
`translate_batch` invocation (one slice of at most 10 units); it is across
the successive slices of `translate_file`'s chunking loop that the size is
reset to the default 10. -/
theorem c3_sizes_monotone_within_one_invocation (api : Api) (mr : Nat)
    (texts : List (String × String)) (batchSize calls : Nat) :
    ((translate_batch api mr texts batchSize calls).2.2).Pairwise
      (α := Nat) (· ≥ ·) := by
  unfold translate_batch
  split
  · simp
  · exact translateBatchGo_pairwise api mr _ _ ⟨List.Pairwise.nil, by simp⟩

/-- Claim C6: with 23 pending units and the initial batch size 10, and
every backend call succeeding with a matching line count, the translation
body makes exactly 3 backend calls of sizes 10, 10 and 3, and the result
map has exactly 23 entries; the end-to-end `translate_file` run succeeds
with the same call trace. -/
theorem c6_23_units_three_calls :
    runBody env23 =
      (.ok (some ((List.range 23).map (fun i => ("u" ++ toString i, "t")))),
        3, [10, 10, 3]) ∧
    ((List.range 23).map (fun i => ("u" ++ toString i, "t"))).length = 23 ∧
    translate_file env23 { target := "orig", backup := none } =
      (.ok, { target := "OUT", backup := some "orig" }, 3, [10, 10, 3]) := by
  refine ⟨by rfl, by simp, by rfl⟩

/-- The lstrip character set used by the code equals the claim's character
set (digits, dash, dot, closing parenthesis, space); the code's literal
lists `'.'` twice, which changes nothing. -/
theorem markerSet_eq : ∀ c, isMarker c = claimMarkerSet c := by
  intro c
  have hm : markerChars =
      ['0','1','2','3','4','5','6','7','8','9','-','.',')','.',' '] := rfl
  rw [Bool.eq_iff_iff]
  simp [isMarker, hm, claimMarkerSet, List.contains]
  tauto

/-- Claim C4: one backend call either returns a mapping whose key list is
exactly the input id list (hence equal key sets, ids being distinct), or
fails; and whenever the parsed line count differs from the input item
count it fails with the count-mismatch error, regardless of the lines'
content. -/
theorem c4_backend_key_set (texts : List (String × String))
    (_hnd : (texts.map Prod.fst).Nodup) :
    (∀ r m, translateSingleBatch texts r = .ok m →
        m.map Prod.fst = texts.map Prod.fst)
  ∧ (∀ raw : String,
      ((splitNl (stripChars raw.data)).map lstripMarkers).length ≠ texts.length →
      translateSingleBatch texts (.ok raw) =
        .error ("Translation failed: Translation count mismatch: expected " ++
          toString texts.length ++ ", got " ++
          toString ((splitNl (stripChars raw.data)).map lstripMarkers).length)) := by
  constructor
  · intro r m h
    cases r with
    | exn msg => simp [translateSingleBatch] at h
    | ok raw =>
      simp only [translateSingleBatch] at h
      split at h
      · rename_i hlen
        cases h
        rw [List.map_map]
        have h1 : (Prod.fst ∘ fun p : (String × String) × List Char =>
            (p.1.1, p.2.asString)) = Prod.fst ∘ Prod.fst := rfl
        rw [h1, ← List.map_map, List.map_fst_zip]
        omega
      · cases h
  · intro raw hne
    simp only [translateSingleBatch]
    rw [if_neg hne]

/-- Claim C4 witness: on two distinct ids with a two-line reply the call
returns exactly those ids; on a one-line reply it raises the
count-mismatch error. -/
theorem c4_backend_key_set_witness :
    ([("i1", "a"), ("i2", "b")].map Prod.fst).Nodup ∧
    translateSingleBatch [("i1", "a"), ("i2", "b")] (.ok "x\ny") =
      .ok [("i1", "x"), ("i2", "y")] ∧
    [("i1", "x"), ("i2", "y")].map Prod.fst =
      [("i1", "a"), ("i2", "b")].map Prod.fst ∧
    translateSingleBatch [("i1", "a"), ("i2", "b")] (.ok "x") =
      .error "Translation failed: Translation count mismatch: expected 2, got 1" :=
  ⟨by decide, by rfl,
    (c4_backend_key_set [("i1", "a"), ("i2", "b")] (by decide)).1
      (.ok "x\ny") [("i1", "x"), ("i2", "y")] (by rfl),
    by
      have h := (c4_backend_key_set [("i1", "a"), ("i2", "b")] (by decide)).2
        "x" (by decide)
      exact h⟩

/-- Claim C9: every response line is lstripped of all leading characters
from the marker set before the count check (which therefore sees the same
number of lines) and before being paired with its input id; the marker set
is exactly the claim's set, and a genuine translation beginning with
marker characters loses them. -/
theorem c9_enumeration_stripping (texts : List (String × String)) (raw : String) :
    (((splitNl (stripChars raw.data)).map lstripMarkers).length =
        (splitNl (stripChars raw.data)).length)
  ∧ (∀ m, translateSingleBatch texts (.ok raw) = .ok m →
        m = (texts.zip ((splitNl (stripChars raw.data)).map lstripMarkers)).map
              (fun p => (p.1.1, p.2.asString)))
  ∧ (∀ c, isMarker c = claimMarkerSet c)
  ∧ (∀ pre rest : List Char, (∀ c ∈ pre, claimMarkerSet c = true) →
        lstripMarkers (pre ++ rest) = lstripMarkers rest) := by
  refine ⟨List.length_map _ _, ?_, markerSet_eq, ?_⟩
  · intro m h
    simp only [translateSingleBatch] at h
    split at h
    · cases h; rfl
    · cases h
  · intro pre rest hpre
    induction pre with
    | nil => rfl
    | cons c pre ih =>
      have hc : isMarker c = true := by
        rw [markerSet_eq]
        exact hpre c (List.mem_cons_self c pre)
      simp only [lstripMarkers, List.cons_append, List.dropWhile_cons, hc, if_true]
      exact ih (fun c' hc' => hpre c' (List.mem_cons_of_mem c hc'))

/-- Claim C9 witness: a genuine text starting with `"-9) "` loses that
prefix, and `'7'` is in both the code's and the claim's marker set. -/
theorem c9_enumeration_stripping_witness :
    lstripMarkers ("-9) ".data ++ "rue".data) = lstripMarkers "rue".data ∧
    isMarker '7' = claimMarkerSet '7' :=
  ⟨(c9_enumeration_stripping [] "").2.2.2 "-9) ".data "rue".data (by decide),
   (c9_enumeration_stripping [] "").2.2.1 '7'⟩

/-- The outcome component of `translate_file` ignores the restore oracle:
the handler re-raises the original error whether or not the restore copy
succeeds. -/
theorem translate_file_fst (env : Env) (fs : FS) :
    (translate_file env fs).1 =
      if env.backupOk then
        match (runBody env).1 with
        | .error e => .err ("Translation failed: " ++ e)
        | .ok none => .ok
        | .ok (some _) =>
          if env.writeOk then .ok
          else .err ("Translation failed: " ++ env.writeErr)
      else .err ("Failed to create backup: " ++ env.backupErr) := by
  unfold translate_file handleFail
  by_cases hb : env.backupOk
  · rw [if_pos hb, if_pos hb]
    rcases hrb : runBody env with ⟨res, calls, trace⟩
    match res with
    | .error e => rfl
    | .ok none => rfl
    | .ok (some tr) =>
      dsimp only
      by_cases hw : env.writeOk
      · rw [if_pos hw, if_pos hw]
      · rw [if_neg hw, if_neg hw]
  · rw [if_neg hb, if_neg hb]

/-- Claim C5: when the backup write fails the run aborts with the backup
error and the target file untouched; when the backup was written and the
run fails with the restore succeeding, the target's bytes are back to their
pre-run content; and the propagated error message never depends on whether
the restore succeeded. -/
theorem c5_backup_and_restore (env : Env) (fs : FS) :
    (env.backupOk = false →
      translate_file env fs =
        (.err ("Failed to create backup: " ++ env.backupErr), fs, 0, []))
  ∧ (env.backupOk = true → env.restoreOk = true →
      ∀ msg fs2 c t, translate_file env fs = (.err msg, fs2, c, t) →
        fs2.target = fs.target)
  ∧ (∀ b1 b2 : Bool,
      resMsg (translate_file { env with restoreOk := b1 } fs) =
      resMsg (translate_file { env with restoreOk := b2 } fs)) := by
  refine ⟨?_, ?_, ?_⟩
  · intro h
    simp [translate_file, h]
  · intro hb hr msg fs2 c t h
    simp only [translate_file, hb, if_true] at h
    rcases hrb : runBody env with ⟨res, calls, trace⟩
    rw [hrb] at h
    match res with
    | .error e =>
      simp only [handleFail, hr, if_true] at h
      cases h
      rfl
    | .ok none => cases h
    | .ok (some tr) =>
      by_cases hw : env.writeOk
      · simp only [hw, if_true] at h
        cases h
      · simp only [hw, Bool.false_eq_true, if_false] at h
        simp only [handleFail, hr, if_true] at h
        cases h
        rfl
  · intro b1 b2
    unfold resMsg
    rw [translate_file_fst, translate_file_fst]
    rfl

/-- Claim C5 witness: a failing backup aborts with the target untouched; a
failing parse after a successful backup restores the original bytes; and
the message is the same whether or not the restore succeeds. -/
theorem c5_backup_and_restore_witness :
    translate_file envBackupFail { target := "orig", backup := none } =
      (.err ("Failed to create backup: " ++ "disk full"),
        { target := "orig", backup := none }, 0, []) ∧
    (translate_file envParseFail { target := "orig", backup := none }).2.1.target =
      "orig" ∧
    resMsg (translate_file { envParseFail with restoreOk := true }
        { target := "orig", backup := none }) =
      resMsg (translate_file { envParseFail with restoreOk := false }
        { target := "orig", backup := none }) :=
  ⟨(c5_backup_and_restore envBackupFail { target := "orig", backup := none }).1 rfl,
   by
     have hrun : translate_file envParseFail { target := "orig", backup := none } =
         (.err "Translation failed: boom",
           { target := "orig", backup := some "orig" }, 0, ([] : List Nat)) := by rfl
     have h2 := (c5_backup_and_restore envParseFail
         { target := "orig", backup := none }).2.1 rfl rfl
       "Translation failed: boom" { target := "orig", backup := some "orig" }
       0 [] hrun
     exact (congrArg (fun r => r.2.1.target) hrun).trans h2,
   (c5_backup_and_restore envParseFail { target := "orig", backup := none }).2.2
     true false⟩

/-- Claim C7: with the backup written, a parse yielding no pending units
but a non-empty set of existing translations makes `translate_file` return
normally with zero backend calls and the target file byte-identical, while
a parse yielding neither raises the no-translatable-strings error. -/
theorem c7_skip_translated_noop (env : Env) (fs : FS)
    (hb : env.backupOk = true) :
    (∀ ex, env.parse = .ok ([], ex) → ex ≠ [] →
      translate_file env fs =
        (.ok, { target := fs.target, backup := some fs.target }, 0, []))
  ∧ (env.parse = .ok ([], []) →
      translate_file env fs =
        (.err ("Translation failed: No translatable strings found in the XLIFF file"),
          { target := fs.target, backup := some fs.target }, 0, [])) := by
  constructor
  · intro ex hp hex
    have hbody : runBody env = (.ok none, 0, []) := by
      simp only [runBody, hp]
      rw [if_neg, if_pos]
      · simp
      · simp [hex]
    simp only [translate_file, hb, if_true, hbody]
  · intro hp
    have hbody : runBody env =
        (.error "No translatable strings found in the XLIFF file", 0, []) := by
      simp [runBody, hp]
    simp only [translate_file, hb, if_true, hbody, handleFail]
    cases hr : env.restoreOk
    · simp
    · simp

/-- Claim C7 witness: the all-done run succeeds without touching the
target and without API calls; the nothing-at-all run raises. -/
theorem c7_skip_translated_noop_witness :
    translate_file envAllDone { target := "o", backup := none } =
      (.ok, { target := "o", backup := some "o" }, 0, []) ∧
    translate_file envNothing { target := "o", backup := none } =
      (.err ("Translation failed: No translatable strings found in the XLIFF file"),
        { target := "o", backup := some "o" }, 0, []) :=
  ⟨(c7_skip_translated_noop envAllDone _ rfl).1 [("a", "done")] rfl (by simp),
   (c7_skip_translated_noop envNothing _ rfl).2 rfl⟩

/-- Dict assignment with a fresh key appends the entry. -/
theorem dictPut_of_fresh {α : Type} (d : List (String × α)) (k : String) (v : α)
    (h : d.any (fun p => p.1 == k) = false) : dictPut d k v = d ++ [(k, v)] := by
  simp only [dictPut, h]
  rw [if_neg]
  simp

/-- The folder loop records one entry per processed language, in order,
with the value determined by that language's own oracles alone: one
language's failure neither stops the loop nor changes any other entry. -/
theorem xlocGo_characterization (env : XEnv) :
    ∀ folders acc,
      (processedLangsGo env.targetLangs folders).Nodup →
      (∀ l ∈ processedLangsGo env.targetLangs folders,
        acc.any (fun p => p.1 == l) = false) →
      xlocGo env folders acc =
        acc ++ (processedLangsGo env.targetLangs folders).map
          (fun l => (l, bundleOutcome env l)) := by
  intro folders
  induction folders with
  | nil => intro acc _ _; simp [xlocGo, processedLangsGo]
  | cons f rest ih =>
    intro acc hnd hdisj
    by_cases hs : sourceSkipped f
    · rw [xlocGo, processedLangsGo] at *
      simp only [hs, if_true] at *
      exact ih acc hnd hdisj
    · by_cases hf : langFilterSkip env.targetLangs (pyReplace f ".xcloc" "")
      · rw [xlocGo, processedLangsGo] at *
        simp only [hs, hf, if_true, if_false] at *
        exact ih acc hnd hdisj
      · rw [xlocGo, processedLangsGo] at *
        simp only [hs, hf, if_false, Bool.false_eq_true] at *
        set lang := pyReplace f ".xcloc" "" with hlang
        have hmem : lang ∈ lang :: processedLangsGo env.targetLangs rest :=
          List.mem_cons_self _ _
        have hfresh : acc.any (fun p => p.1 == lang) = false := hdisj lang hmem
        have hnotin : lang ∉ processedLangsGo env.targetLangs rest :=
          (List.nodup_cons.mp hnd).1
        have hnd' : (processedLangsGo env.targetLangs rest).Nodup :=
          (List.nodup_cons.mp hnd).2
        have hdisj' : ∀ v : Bool, ∀ l ∈ processedLangsGo env.targetLangs rest,
            (acc ++ [(lang, v)]).any (fun p => p.1 == l) = false := by
          intro v l hl
          rw [List.any_append]
          have h1 : acc.any (fun p => p.1 == l) = false :=
            hdisj l (List.mem_cons_of_mem _ hl)
          have h2 : (lang == l) = false := by
            rw [beq_eq_false_iff_ne]
            intro he
            exact hnotin (he ▸ hl)
          simp [h1, h2]
        by_cases he : env.xliffExists lang
        · rcases hres : env.fileResult lang with emsg | u
          · simp only [he, Bool.not_true, Bool.false_eq_true, if_false, hres]
            rw [dictPut_of_fresh _ _ _ hfresh, ih _ hnd' (hdisj' false)]
            have hout : bundleOutcome env lang = false := by
              simp [bundleOutcome, he, hres]
            rw [List.map_cons, hout, List.append_assoc]
            rfl
          · simp only [he, Bool.not_true, Bool.false_eq_true, if_false, hres]
            rw [dictPut_of_fresh _ _ _ hfresh, ih _ hnd' (hdisj' true)]
            have hout : bundleOutcome env lang = true := by
              simp [bundleOutcome, he, hres]
            rw [List.map_cons, hout, List.append_assoc]
            rfl
        · simp only [he, Bool.not_false, if_true]
          rw [dictPut_of_fresh _ _ _ hfresh, ih _ hnd' (hdisj' false)]
          have hout : bundleOutcome env lang = false := by
            simp [bundleOutcome, he]
          rw [List.map_cons, hout, List.append_assoc]
          rfl

/-- Claim C8: in directory mode each processed language gets exactly one
entry whose success value depends only on that language's own XLIFF
presence and `translate_file` outcome — so one bundle's failure is
recorded as `false` and does not abort the others — and when every
recorded entry is a failure the end-to-end exit code is 1. -/
theorem c8_bulk_isolation (env : XEnv)
    (hnd : (processedLangs env).Nodup) (hne : env.folders ≠ []) :
    translate_xcode_export env =
      .ok ((processedLangs env).map (fun l => (l, bundleOutcome env l)))
  ∧ (∀ res, translate_xcode_export env = .ok res →
      (∀ p ∈ res, p.2 = false) → mainFolderExit env = 1) := by
  constructor
  · rw [translate_xcode_export, if_neg]
    · rw [xlocGo_characterization env env.folders [] hnd (by simp)]
      rfl
    · simp [hne]
  · intro res hres hall
    rw [mainFolderExit, hres]
    dsimp only
    have hany : res.any (fun p => p.2) = false := by
      rw [List.any_eq_false]
      intro p hp
      simp [hall p hp]
    rw [hany]
    rfl

/-- Claim C8 witness: over `en`, `de`, `fr` with `de` failing, the result
map records `de ↦ false` and `fr ↦ true`; when both processed languages
fail, the exit code is 1. -/
theorem c8_bulk_isolation_witness :
    translate_xcode_export envDirMixed = .ok [("de", false), ("fr", true)] ∧
    mainFolderExit envDirAllFail = 1 :=
  ⟨((c8_bulk_isolation envDirMixed (by decide) (by decide)).1).trans (by rfl),
   (c8_bulk_isolation envDirAllFail (by decide) (by decide)).2
     [("de", false), ("fr", false)] (by rfl) (by decide)⟩

/-- Claim C10: a bundle is skipped as the source exactly when its folder
name before `.xcloc` lowercases to `en` (for any well-formed name, i.e.
one from which the code's `replace('.xcloc', '')` recovers that prefix),
and which bundles are processed is a function of the folder names and the
allowlist alone — the documents' declared source language plays no part. -/
theorem c10_source_folder_skip (t : String)
    (h : pyReplace (t ++ ".xcloc") ".xcloc" "" = t) :
    (sourceSkipped (t ++ ".xcloc") = true ↔ lowerStr t = "en")
  ∧ (∀ env1 env2 : XEnv, env1.folders = env2.folders →
      env1.targetLangs = env2.targetLangs →
      processedLangs env1 = processedLangs env2) := by
  constructor
  · rw [sourceSkipped, h]
    exact beq_iff_eq
  · intro env1 env2 h1 h2
    rw [processedLangs, processedLangs, h1, h2]

/-- Claim C10 witness: `EN.xcloc` is recognised and skipped as the source
folder. -/
theorem c10_source_folder_skip_witness :
    pyReplace ("EN" ++ ".xcloc") ".xcloc" "" = "EN" ∧
    (sourceSkipped ("EN" ++ ".xcloc") = true ↔ lowerStr "EN" = "en") :=
  ⟨by rfl, (c10_source_folder_skip "EN" (by rfl)).1⟩
